import Mathlib

/-
Shallow embedding of the tsyne Native Bridge Adapter:
  - src/android-native/app/src/main/cpp/jni-wrapper.c
  - src/android-native/app/src/main/cpp/node-runner.cpp
  - src/bridge/ffi_callback.c

The adapter resolves entry points in an already-loaded peer shared library
(dlopen with RTLD_NOW | RTLD_NOLOAD, then dlsym), caches the addresses in
process-global state, and exposes JNI operations that either fail with a
negative sentinel or pass through to the peer entry points.

Modelling conventions:
  - The process-wide dynamic-linker view is a `World`: the set of loaded
    library names, a symbol table (library name x symbol name -> address),
    and a handle address per library.  `dlopenM` consumes and returns the
    `World` so that "the adapter never loads a library itself" is an
    observable fact (the returned `World` is unchanged on the no-load path).
  - The C globals of jni-wrapper.c form the state `St`; those of
    node-runner.cpp form `NodeSt`.  Each operation is a function from
    world/state/arguments to a result record carrying the jint return value,
    the updated state, the list of calls made into the peer library, and the
    microseconds slept on the calling thread.
  - Calling a cached NULL function pointer is undefined behaviour in C; it
    is modelled as the distinguished result `CallResult.nullDeref`, distinct
    from every integer return.
  - jfloat arguments (screen sizes, touch coordinates) are pure pass-through
    scalars here (no arithmetic is performed on them in the C source), so
    they are modelled as `Int`.
  - `strncpy(dst, src, sizeof-1)` and `snprintf(buf, 256, ...)` truncate;
    both are modelled character-wise with `List.take`.
-/

namespace Tsyne

/-- The process-wide dynamic-linker view: which libraries are resident, the
symbol table of each, and the (stable) handle address of each library. -/
structure World where
  loaded : List String
  sym : String → String → Option Nat
  handleAddr : String → Nat

def RTLD_NOW : Nat := 2

def RTLD_NOLOAD : Nat := 4

/-- Whether a dlopen flag word requests no-load semantics. -/
def hasNoLoadFlag (flags : Nat) : Bool := flags &&& RTLD_NOLOAD != 0

/-- Model of dlopen: if the library is resident, return its handle; otherwise
with RTLD_NOLOAD fail without touching the process, else load it. -/
def dlopenM (w : World) (name : String) (flags : Nat) : Option Nat × World :=
  if name ∈ w.loaded then (some (w.handleAddr name), w)
  else if hasNoLoadFlag flags then (none, w)
  else (some (w.handleAddr name), { w with loaded := name :: w.loaded })

/-- Model of dlsym on the handle of library `lib`. -/
def dlsymM (w : World) (lib : String) (symName : String) : Option Nat :=
  w.sym lib symName

/-- The process-global mutable state of jni-wrapper.c (its `static` variables). -/
structure St where
  socketDir : String := ""
  bridgeHandle : Option Nat := none
  pTsyneInit : Option Nat := none
  pStartUDS : Option Nat := none
  pStartUDSWithDir : Option Nat := none
  pStartGrpc : Option Nat := none
  pStartEmbedded : Option Nat := none
  pSetRenderCallback : Option Nat := none
  pSetScreenSize : Option Nat := none
  pTouchDown : Option Nat := none
  pTouchMove : Option Nat := none
  pTouchUp : Option Nat := none
  javaVM : Bool := false
  renderSurface : Option Nat := none
  onFrameMethod : Option Nat := none
  screenWidth : Int := 0
  screenHeight : Int := 0
  bridgeTestMode : Int := 0
deriving DecidableEq, Repr

/-- The fresh state of the process (all C statics zero-initialised). -/
def st0 : St := {}

def bridgeLib : String := "libtsyne-bridge.so"

/-- Result of `initFunctionPointers`: the C return value, the updated globals,
the updated linker world, and how many dlopen/dlsym lookups were performed. -/
structure InitRes where
  ret : Int
  st : St
  world : World
  dlopenCalls : Nat
  dlsymCalls : Nat

/-- Embedding of `initFunctionPointers` (jni-wrapper.c, lines 113-162):
guard on the cached `g_TsyneInit`, dlopen with RTLD_NOW | RTLD_NOLOAD,
then dlsym the three required and six optional symbols in source order,
returning 0 as soon as a required lookup fails. -/
def initFunctionPointers (w : World) (s : St) : InitRes :=
  if s.pTsyneInit.isSome then ⟨1, s, w, 0, 0⟩
  else
    let hw := dlopenM w bridgeLib (RTLD_NOW ||| RTLD_NOLOAD)
    let s1 : St := { s with bridgeHandle := hw.1 }
    match hw.1 with
    | none => ⟨0, s1, hw.2, 1, 0⟩
    | some _ =>
      let pInit := dlsymM hw.2 bridgeLib "TsyneInit"
      let s2 : St := { s1 with pTsyneInit := pInit }
      if pInit = none then ⟨0, s2, hw.2, 1, 1⟩
      else
        let pUDS := dlsymM hw.2 bridgeLib "StartBridgeMsgpackUDS"
        let s3 : St := { s2 with pStartUDS := pUDS }
        if pUDS = none then ⟨0, s3, hw.2, 1, 2⟩
        else
          let s4 : St := { s3 with
            pStartUDSWithDir := dlsymM hw.2 bridgeLib "StartBridgeMsgpackUDSWithDir" }
          let pGrpc := dlsymM hw.2 bridgeLib "StartBridgeGrpc"
          let s5 : St := { s4 with pStartGrpc := pGrpc }
          if pGrpc = none then ⟨0, s5, hw.2, 1, 4⟩
          else
            let s6 : St := { s5 with
              pStartEmbedded := dlsymM hw.2 bridgeLib "StartBridgeAndroidEmbedded",
              pSetRenderCallback := dlsymM hw.2 bridgeLib "SetAndroidRenderCallback",
              pSetScreenSize := dlsymM hw.2 bridgeLib "SetAndroidScreenSize",
              pTouchDown := dlsymM hw.2 bridgeLib "SendAndroidTouchDown",
              pTouchMove := dlsymM hw.2 bridgeLib "SendAndroidTouchMove",
              pTouchUp := dlsymM hw.2 bridgeLib "SendAndroidTouchUp" }
            ⟨1, s6, hw.2, 1, 10⟩

/-- The process-global mutable state of node-runner.cpp. -/
structure NodeSt where
  nodeHandle : Option Nat := none
  nodeStart : Option Nat := none
deriving DecidableEq, Repr

def nodeSt0 : NodeSt := {}

def nodeLib : String := "libnode.so"

def nodeStartSym : String := "_ZN4node5StartEiPPc"

structure NodeInitRes where
  ret : Int
  st : NodeSt
  world : World
  dlopenCalls : Nat
  dlsymCalls : Nat

/-- Embedding of `initNode` (node-runner.cpp, lines 39-59): guard on the
cached `g_nodeStart`, dlopen libnode.so with RTLD_NOW | RTLD_NOLOAD, then
dlsym the mangled `node::Start` symbol. -/
def initNode (w : World) (s : NodeSt) : NodeInitRes :=
  if s.nodeStart.isSome then ⟨1, s, w, 0, 0⟩
  else
    let hw := dlopenM w nodeLib (RTLD_NOW ||| RTLD_NOLOAD)
    let s1 : NodeSt := { s with nodeHandle := hw.1 }
    match hw.1 with
    | none => ⟨0, s1, hw.2, 1, 0⟩
    | some _ =>
      let p := dlsymM hw.2 nodeLib nodeStartSym
      let s2 : NodeSt := { s1 with nodeStart := p }
      if p = none then ⟨0, s2, hw.2, 1, 1⟩ else ⟨1, s2, hw.2, 1, 1⟩

/-- Behaviour of the peer library's entry points (what the Go side returns
when invoked); opaque to the adapter, which passes results through. -/
structure PeerImpl where
  tsyneInitRet : Int → Int
  startUDSRet : Int → Int
  startUDSWithDirRet : Int → String → Int
  startGrpcRet : Int → Int
  startEmbeddedRet : Int → Int → String → Int
  nodeStartRet : Int

/-- Outcome of invoking a cached function pointer: a C return value, or the
undefined behaviour of calling through NULL. -/
inductive CallResult where
  | ok (v : Int)
  | nullDeref
deriving DecidableEq, Repr

/-- One call made from the adapter into a peer library entry point. -/
inductive PeerCall where
  | tsyneInit (mode : Int)
  | startUDS (mode : Int)
  | startUDSWithDir (mode : Int) (dir : String)
  | startGrpc (mode : Int)
  | startEmbedded (width height : Int) (dir : String)
  | setRenderCallback
  | setScreenSize (width height : Int)
  | touchDown (x y pointerId : Int)
  | touchMove (x y pointerId : Int)
  | touchUp (x y pointerId : Int)
  | nodeStart (argc : Nat) (script : String)
deriving DecidableEq, Repr

/-- Result of a jint-returning JNI operation: return value, updated globals,
updated linker world, calls made into the peer on the calling thread, and
microseconds slept on the calling thread before returning. -/
structure JniRes where
  ret : CallResult
  st : St
  world : World
  calls : List PeerCall
  sleepMicros : Nat

/-- Embedding of `Java_com_tsyne_phonetop_MainActivity_TsyneInit`
(jni-wrapper.c, lines 165-174). -/
def tsyneInitOp (w : World) (s : St) (impl : PeerImpl) (headless : Int) : JniRes :=
  let i := initFunctionPointers w s
  if i.ret = 0 then ⟨.ok (-1), i.st, i.world, [], 0⟩
  else
    match i.st.pTsyneInit with
    | none => ⟨.nullDeref, i.st, i.world, [], 0⟩
    | some _ => ⟨.ok (impl.tsyneInitRet headless), i.st, i.world, [.tsyneInit headless], 0⟩

/-- Embedding of `Java_com_tsyne_phonetop_MainActivity_StartBridgeMsgpackUDS`
(jni-wrapper.c, lines 177-186). -/
def startBridgeMsgpackUDSOp (w : World) (s : St) (impl : PeerImpl) (testMode : Int) : JniRes :=
  let i := initFunctionPointers w s
  if i.ret = 0 then ⟨.ok (-1), i.st, i.world, [], 0⟩
  else
    match i.st.pStartUDS with
    | none => ⟨.nullDeref, i.st, i.world, [], 0⟩
    | some _ => ⟨.ok (impl.startUDSRet testMode), i.st, i.world, [.startUDS testMode], 0⟩

/-- Embedding of `Java_com_tsyne_phonetop_MainActivity_StartBridgeGrpc`
(jni-wrapper.c, lines 189-198). -/
def startBridgeGrpcOp (w : World) (s : St) (impl : PeerImpl) (testMode : Int) : JniRes :=
  let i := initFunctionPointers w s
  if i.ret = 0 then ⟨.ok (-1), i.st, i.world, [], 0⟩
  else
    match i.st.pStartGrpc with
    | none => ⟨.nullDeref, i.st, i.world, [], 0⟩
    | some _ => ⟨.ok (impl.startGrpcRet testMode), i.st, i.world, [.startGrpc testMode], 0⟩

/-- Character-wise model of `strncpy(dst, src, n)` followed by forced NUL
termination: at most `n` characters of `src` are kept. -/
def strncpyTrunc (src : String) (n : Nat) : String := ⟨src.data.take n⟩

/-- The socket-directory store shared by `startBridgeInBackground` (lines
208-216) and `startEmbeddedBridge` (lines 307-315): a non-NULL jstring is
copied into the 512-byte `g_socketDir` buffer (at most 511 characters kept);
a NULL jstring leaves the buffer untouched. -/
def storeSocketDir (s : St) (socketDir : Option String) : St :=
  match socketDir with
  | none => s
  | some d => { s with socketDir := strncpyTrunc d 511 }

/-- Embedding of `bridgeThreadFunc` (jni-wrapper.c, lines 96-110), the worker
body: prefer `StartBridgeMsgpackUDSWithDir` when a socket directory is set
and that optional symbol resolved, else call `StartBridgeMsgpackUDS`.  The
returned `CallResult` is only ever logged by the worker. -/
def bridgeThreadFunc (s : St) (impl : PeerImpl) (testMode : Int) : CallResult × List PeerCall :=
  if s.socketDir ≠ "" ∧ s.pStartUDSWithDir.isSome then
    (.ok (impl.startUDSWithDirRet testMode s.socketDir), [.startUDSWithDir testMode s.socketDir])
  else
    match s.pStartUDS with
    | none => (.nullDeref, [])
    | some _ => (.ok (impl.startUDSRet testMode), [.startUDS testMode])

/-- Result of `startBridgeInBackground`: jint return, updated globals, world,
microseconds slept on the calling thread, and the computation handed to the
spawned worker (none when no worker was created). -/
structure BgRes where
  ret : Int
  st : St
  world : World
  sleepMicros : Nat
  worker : Option (CallResult × List PeerCall)

/-- Embedding of `Java_com_tsyne_phonetop_MainActivity_startBridgeInBackground`
(jni-wrapper.c, lines 202-232): init, store the socket directory, record the
test mode, spawn the worker (`pthreadOk` models pthread_create succeeding),
sleep 500000 microseconds, return 0. -/
def startBridgeInBackground (w : World) (s : St) (impl : PeerImpl) (testMode : Int)
    (socketDir : Option String) (pthreadOk : Bool) : BgRes :=
  let i := initFunctionPointers w s
  if i.ret = 0 then ⟨-1, i.st, i.world, 0, none⟩
  else
    let s2 : St := { storeSocketDir i.st socketDir with bridgeTestMode := testMode }
    if pthreadOk = false then ⟨-2, s2, i.world, 0, none⟩
    else ⟨0, s2, i.world, 500000, some (bridgeThreadFunc s2 impl s2.bridgeTestMode)⟩

def defaultSocketDir : String := "/data/local/tmp"

/-- The full formatted socket path before any buffer truncation. -/
def socketPathFmt (dir : String) (pid : Nat) : String :=
  dir ++ "/tsyne-" ++ toString pid ++ ".sock"

/-- Embedding of `Java_com_tsyne_phonetop_MainActivity_getBridgeSocketPath`
(jni-wrapper.c, lines 236-242): choose `g_socketDir` when non-empty, else the
default directory, and format into a 256-byte buffer via snprintf, which
keeps at most 255 characters. -/
def getBridgeSocketPath (s : St) (pid : Nat) : String :=
  let dir := if s.socketDir ≠ "" then s.socketDir else defaultSocketDir
  ⟨(socketPathFmt dir pid).data.take 255⟩

/-- One observable JNI-side action of the render callback. -/
inductive CbAction where
  | attach
  | dispatch (width height stride : Int)
  | deleteRef
  | detach
deriving DecidableEq, Repr

/-- The frame-dispatch section of `nativeRenderCallback` (lines 78-88):
NewDirectByteBuffer (success modelled by `bufferOk`), CallVoidMethod when
both the buffer and the cached onFrame method id are non-NULL, then
DeleteLocalRef of a non-NULL buffer. -/
def dispatchActs (s : St) (bufferOk : Bool) (width height stride : Int) : List CbAction :=
  if bufferOk then
    (if s.onFrameMethod.isSome then [.dispatch width height stride] else []) ++ [.deleteRef]
  else []

/-- Embedding of `nativeRenderCallback` (jni-wrapper.c, lines 61-93).
`attached0` is whether the calling thread is attached to the JVM on entry
(GetEnv succeeds exactly then); `attachOk` is whether AttachCurrentThread
would succeed.  Returns the thread's attachment state on exit and the list
of JNI actions performed. -/
def nativeRenderCallback (s : St) (attached0 attachOk bufferOk : Bool)
    (width height stride : Int) : Bool × List CbAction :=
  if s.javaVM = false ∨ s.renderSurface = none then (attached0, [])
  else if attached0 then (true, dispatchActs s bufferOk width height stride)
  else if attachOk = false then (false, [])
  else (false, [CbAction.attach] ++ dispatchActs s bufferOk width height stride ++ [CbAction.detach])

/-- Result of `startEmbeddedBridge`: jint return, updated globals, world,
microseconds slept, and whether the embedded worker thread was spawned. -/
structure EmbRes where
  ret : Int
  st : St
  world : World
  sleepMicros : Nat
  workerSpawned : Bool

/-- Embedding of `Java_com_tsyne_phonetop_MainActivity_startEmbeddedBridge`
(jni-wrapper.c, lines 289-344).  `renderTarget` is the (possibly NULL)
jobject; `onFrameLookup` is the GetMethodID result for
`onFrame(Ljava/nio/ByteBuffer;III)V` on that target's class (`none` when the
class lacks the method).  On the missing-method path the freshly stored
global reference is deleted and nulled again and -3 is returned. -/
def startEmbeddedBridge (w : World) (s : St) (width height : Int) (socketDir : Option String)
    (renderTarget : Option Nat) (onFrameLookup : Option Nat) (pthreadOk : Bool) : EmbRes :=
  let i := initFunctionPointers w s
  if i.ret = 0 then ⟨-1, i.st, i.world, 0, false⟩
  else if i.st.pStartEmbedded = none then ⟨-2, i.st, i.world, 0, false⟩
  else
    let s1 : St := { i.st with screenWidth := width, screenHeight := height }
    let s2 := storeSocketDir s1 socketDir
    match renderTarget with
    | some t =>
      let s3 : St := { s2 with renderSurface := some t, onFrameMethod := onFrameLookup }
      match onFrameLookup with
      | none => ⟨-3, { s3 with renderSurface := none }, i.world, 0, false⟩
      | some _ =>
        if pthreadOk = false then ⟨-4, s3, i.world, 0, false⟩
        else ⟨0, s3, i.world, 500000, true⟩
    | none =>
      if pthreadOk = false then ⟨-4, s2, i.world, 0, false⟩
      else ⟨0, s2, i.world, 500000, true⟩

/-- Embedding of `Java_com_tsyne_phonetop_MainActivity_setScreenSize`
(jni-wrapper.c, lines 348-355): always record the new size in the globals;
call the peer only when the optional `SetAndroidScreenSize` resolved. -/
def setScreenSizeOp (s : St) (width height : Int) : St × List PeerCall :=
  let s1 : St := { s with screenWidth := width, screenHeight := height }
  if s.pSetScreenSize.isSome then (s1, [.setScreenSize width height]) else (s1, [])

/-- Embedding of `Java_com_tsyne_phonetop_MainActivity_sendTouchDown`
(jni-wrapper.c, lines 359-364): call the peer only when the optional
`SendAndroidTouchDown` resolved. -/
def sendTouchDownOp (s : St) (x y pointerId : Int) : List PeerCall :=
  if s.pTouchDown.isSome then [.touchDown x y pointerId] else []

/-- Embedding of `Java_com_tsyne_phonetop_MainActivity_sendTouchMove`
(jni-wrapper.c, lines 367-371). -/
def sendTouchMoveOp (s : St) (x y pointerId : Int) : List PeerCall :=
  if s.pTouchMove.isSome then [.touchMove x y pointerId] else []

/-- Embedding of `Java_com_tsyne_phonetop_MainActivity_sendTouchUp`
(jni-wrapper.c, lines 374-378). -/
def sendTouchUpOp (s : St) (x y pointerId : Int) : List PeerCall :=
  if s.pTouchUp.isSome then [.touchUp x y pointerId] else []

/-- Embedding of `nodeThreadFunc` (node-runner.cpp, lines 22-36): the worker
calls node::Start with argc = 2 and argv = {"node", scriptPath}. -/
def nodeThreadFunc (s : NodeSt) (impl : PeerImpl) (script : String) : CallResult × List PeerCall :=
  match s.nodeStart with
  | none => (.nullDeref, [])
  | some _ => (.ok impl.nodeStartRet, [.nodeStart 2 script])

/-- Result of `startNode`: jint return, updated node globals, world, and the
computation handed to the spawned worker. -/
structure NodeRes where
  ret : Int
  st : NodeSt
  world : World
  worker : Option (CallResult × List PeerCall)

/-- Embedding of `Java_com_tsyne_phonetop_MainActivity_startNode`
(node-runner.cpp, lines 64-94): init (-1 on failure), GetStringUTFChars
(-2 on failure, modelled by `getStrOk`), pthread_create (-3 on failure),
else 0 with the worker spawned. -/
def startNode (w : World) (s : NodeSt) (impl : PeerImpl) (script : String)
    (getStrOk pthreadOk : Bool) : NodeRes :=
  let i := initNode w s
  if i.ret = 0 then ⟨-1, i.st, i.world, none⟩
  else if getStrOk = false then ⟨-2, i.st, i.world, none⟩
  else if pthreadOk = false then ⟨-3, i.st, i.world, none⟩
  else ⟨0, i.st, i.world, some (nodeThreadFunc i.st impl script)⟩

/-- Embedding of `callEventCallback` (bridge/ffi_callback.c, lines 8-12):
the list of callback invocations performed, each recorded as the callback
address paired with the event payload it received. -/
def callEventCallback (callback : Option Nat) (eventJson : String) : List (Nat × String) :=
  match callback with
  | none => []
  | some c => [(c, eventJson)]

/-- C10: `callEventCallback` with a NULL callback pointer performs no
invocation at all; with a non-NULL pointer it invokes that callback exactly
once with the given event payload. -/
theorem c10_callEventCallback :
    ∀ (e : String), callEventCallback none e = []
      ∧ ∀ (c : Nat), callEventCallback (some c) e = [(c, e)] := by
  intro e
  exact ⟨rfl, fun c => rfl⟩

/-- C1: a render-callback delivery leaves the calling thread's JVM-attachment
state exactly as it found it.  When the thread was already attached (GetEnv
succeeds) the dispatch happens with neither an attach nor a detach; when it
was detached and AttachCurrentThread succeeds, the delivery attaches,
dispatches, and detaches, so the thread is detached on exit exactly when it
was detached on entry. -/
theorem c1_renderCallback_attach_detach (s : St) (attached0 attachOk bufferOk : Bool)
    (width height stride : Int)
    (hvm : s.javaVM = true) (hsurf : s.renderSurface ≠ none)
    (hm : s.onFrameMethod.isSome = true) (hbuf : bufferOk = true) :
    (nativeRenderCallback s attached0 attachOk bufferOk width height stride).1 = attached0
    ∧ (attached0 = true →
        (nativeRenderCallback s attached0 attachOk bufferOk width height stride).2
          = [CbAction.dispatch width height stride, CbAction.deleteRef])
    ∧ (attached0 = false → attachOk = true →
        (nativeRenderCallback s attached0 attachOk bufferOk width height stride).2
          = [CbAction.attach, CbAction.dispatch width height stride, CbAction.deleteRef,
             CbAction.detach])
    ∧ (attached0 = true →
        CbAction.detach ∉ (nativeRenderCallback s attached0 attachOk bufferOk width height stride).2
        ∧ CbAction.attach ∉ (nativeRenderCallback s attached0 attachOk bufferOk width height stride).2) := by
  subst hbuf
  cases attached0 <;> cases attachOk <;>
    simp [nativeRenderCallback, dispatchActs, hvm, hsurf, hm]

/-- Concrete state for the C1 witness: JavaVM captured, a render surface and
an onFrame method id registered. -/
def c1St : St := { st0 with javaVM := true, renderSurface := some 1, onFrameMethod := some 2 }

/-- C1 witness: the delivery on an already-attached thread leaves it attached. -/
theorem c1_renderCallback_attach_detach_witness :
    (nativeRenderCallback c1St true true true 100 200 400).1 = true :=
  (c1_renderCallback_attach_detach c1St true true true 100 200 400 rfl (by decide) rfl rfl).1

/-- C5: the adapter acquires peer library handles with no-load semantics: the
dlopen flag word of both `initFunctionPointers` and `initNode` carries
RTLD_NOLOAD, and when the named library is not already resident the
resolution fails (returns 0) and the process's loaded-library set (indeed the
whole linker world) is left unchanged — the adapter never loads the library
itself. -/
theorem c5_resolve_noload (w : World) (s : St) (ns : NodeSt)
    (hb : bridgeLib ∉ w.loaded) (hn : nodeLib ∉ w.loaded)
    (hs : s.pTsyneInit = none) (hns : ns.nodeStart = none) :
    hasNoLoadFlag (RTLD_NOW ||| RTLD_NOLOAD) = true
    ∧ (initFunctionPointers w s).ret = 0
    ∧ (initFunctionPointers w s).world = w
    ∧ (initNode w ns).ret = 0
    ∧ (initNode w ns).world = w := by
  have hnl : hasNoLoadFlag (RTLD_NOW ||| RTLD_NOLOAD) = true := by decide
  refine ⟨hnl, ?_⟩
  simp [initFunctionPointers, initNode, dlopenM, hs, hns, hb, hn, hnl]

/-- Empty linker world for the C5 witness: no library is resident. -/
def emptyWorld : World := { loaded := [], sym := fun _ _ => none, handleAddr := fun _ => 0 }

/-- C5 witness: with no library resident, bridge resolution fails and loads
nothing. -/
theorem c5_resolve_noload_witness :
    (initFunctionPointers emptyWorld st0).ret = 0 :=
  (c5_resolve_noload emptyWorld st0 nodeSt0 (by decide) (by decide) rfl rfl).2.1

/-- C4: once the first resolution pass succeeds, every later call to the
initialization routine is answered entirely from the cache: it returns 1
with the globals (cached handle and entry-point addresses) and linker world
unchanged, performing zero dlopen and zero dlsym lookups — for the bridge
adapter and for the node adapter alike. -/
theorem c4_init_caching (w : World) (s : St) (ns : NodeSt) (a1 a2 a3 b : Nat)
    (hl : bridgeLib ∈ w.loaded)
    (h1 : w.sym bridgeLib "TsyneInit" = some a1)
    (h2 : w.sym bridgeLib "StartBridgeMsgpackUDS" = some a2)
    (h3 : w.sym bridgeLib "StartBridgeGrpc" = some a3)
    (hs : s.pTsyneInit = none)
    (hln : nodeLib ∈ w.loaded)
    (hn1 : w.sym nodeLib nodeStartSym = some b)
    (hns : ns.nodeStart = none) :
    (initFunctionPointers w s).ret = 1
    ∧ initFunctionPointers (initFunctionPointers w s).world (initFunctionPointers w s).st
        = ⟨1, (initFunctionPointers w s).st, (initFunctionPointers w s).world, 0, 0⟩
    ∧ (initNode w ns).ret = 1
    ∧ initNode (initNode w ns).world (initNode w ns).st
        = ⟨1, (initNode w ns).st, (initNode w ns).world, 0, 0⟩ := by
  have hnlf : hasNoLoadFlag (RTLD_NOW ||| RTLD_NOLOAD) = true := by decide
  simp [initFunctionPointers, initNode, dlopenM, dlsymM, hl, hln, h1, h2, h3, hn1, hs, hns, hnlf]

/-- Linker world with both peer libraries resident and all required symbols
present (plus the optional embedded entry point). -/
def fullWorld : World :=
  { loaded := [bridgeLib, nodeLib],
    sym := fun l n =>
      if l = bridgeLib then
        if n = "TsyneInit" then some 11
        else if n = "StartBridgeMsgpackUDS" then some 12
        else if n = "StartBridgeGrpc" then some 13
        else if n = "StartBridgeAndroidEmbedded" then some 14
        else none
      else if l = nodeLib then
        if n = nodeStartSym then some 21 else none
      else none,
    handleAddr := fun _ => 1 }

/-- C4 witness: in `fullWorld` the first bridge resolution pass succeeds. -/
theorem c4_init_caching_witness :
    (initFunctionPointers fullWorld st0).ret = 1 :=
  (c4_init_caching fullWorld st0 nodeSt0 11 12 13 21 (by decide) (by decide) (by decide)
    (by decide) rfl (by decide) (by decide) rfl).1

/-- C6: when every optional entry point is absent from the peer library but
the required ones resolve, initialization still succeeds (returns 1), and
the operations depending only on optional entry points — sendTouchDown,
sendTouchMove, sendTouchUp, setScreenSize — make no call into the peer
library (while setScreenSize still records the new geometry locally). -/
theorem c6_optional_noop (w : World) (s : St) (a1 a2 a3 : Nat) (x y p width height : Int)
    (hl : bridgeLib ∈ w.loaded)
    (h1 : w.sym bridgeLib "TsyneInit" = some a1)
    (h2 : w.sym bridgeLib "StartBridgeMsgpackUDS" = some a2)
    (h3 : w.sym bridgeLib "StartBridgeGrpc" = some a3)
    (ho1 : w.sym bridgeLib "StartBridgeMsgpackUDSWithDir" = none)
    (ho2 : w.sym bridgeLib "StartBridgeAndroidEmbedded" = none)
    (ho3 : w.sym bridgeLib "SetAndroidRenderCallback" = none)
    (ho4 : w.sym bridgeLib "SetAndroidScreenSize" = none)
    (ho5 : w.sym bridgeLib "SendAndroidTouchDown" = none)
    (ho6 : w.sym bridgeLib "SendAndroidTouchMove" = none)
    (ho7 : w.sym bridgeLib "SendAndroidTouchUp" = none)
    (hs : s.pTsyneInit = none) :
    (initFunctionPointers w s).ret = 1
    ∧ sendTouchDownOp (initFunctionPointers w s).st x y p = []
    ∧ sendTouchMoveOp (initFunctionPointers w s).st x y p = []
    ∧ sendTouchUpOp (initFunctionPointers w s).st x y p = []
    ∧ (setScreenSizeOp (initFunctionPointers w s).st width height).2 = []
    ∧ (setScreenSizeOp (initFunctionPointers w s).st width height).1.screenWidth = width
    ∧ (setScreenSizeOp (initFunctionPointers w s).st width height).1.screenHeight = height := by
  have hnlf : hasNoLoadFlag (RTLD_NOW ||| RTLD_NOLOAD) = true := by decide
  simp [initFunctionPointers, dlopenM, dlsymM, hl, h1, h2, h3, ho1, ho2, ho3, ho4, ho5, ho6,
    ho7, hs, hnlf, sendTouchDownOp, sendTouchMoveOp, sendTouchUpOp, setScreenSizeOp]

/-- Linker world whose bridge library exports only the three required entry
points; every optional symbol is absent. -/
def requiredOnlyWorld : World :=
  { loaded := [bridgeLib],
    sym := fun l n =>
      if l = bridgeLib then
        if n = "TsyneInit" then some 11
        else if n = "StartBridgeMsgpackUDS" then some 12
        else if n = "StartBridgeGrpc" then some 13
        else none
      else none,
    handleAddr := fun _ => 1 }

/-- C6 witness: with only required symbols present, initialization succeeds
and sendTouchDown makes no peer call. -/
theorem c6_optional_noop_witness :
    (initFunctionPointers requiredOnlyWorld st0).ret = 1
    ∧ sendTouchDownOp (initFunctionPointers requiredOnlyWorld st0).st 3 4 0 = [] :=
  ⟨(c6_optional_noop requiredOnlyWorld st0 11 12 13 3 4 0 7 9 (by decide) (by decide)
      (by decide) (by decide) (by decide) (by decide) (by decide) (by decide) (by decide)
      (by decide) (by decide) rfl).1,
   (c6_optional_noop requiredOnlyWorld st0 11 12 13 3 4 0 7 9 (by decide) (by decide)
      (by decide) (by decide) (by decide) (by decide) (by decide) (by decide) (by decide)
      (by decide) (by decide) rfl).2.1⟩

/-- C7: whenever the worker thread is created, `startBridgeInBackground`
sleeps the fixed 500000-microsecond settle delay on the calling thread and
returns 0, a value that does not depend on the peer entry point's behaviour
(the worker's return value is retained only in the worker computation, never
surfaced to the caller). -/
theorem c7_background_settle (w : World) (s : St) (impl : PeerImpl) (testMode : Int)
    (dir : Option String)
    (h0 : (initFunctionPointers w s).ret ≠ 0) :
    (startBridgeInBackground w s impl testMode dir true).ret = 0
    ∧ (startBridgeInBackground w s impl testMode dir true).sleepMicros = 500000
    ∧ (∀ impl2 : PeerImpl,
        (startBridgeInBackground w s impl2 testMode dir true).ret = 0
        ∧ (startBridgeInBackground w s impl2 testMode dir true).sleepMicros = 500000
        ∧ (startBridgeInBackground w s impl2 testMode dir true).worker
            = some (bridgeThreadFunc (startBridgeInBackground w s impl2 testMode dir true).st
                impl2 testMode)) := by
  simp [startBridgeInBackground, h0]

/-- Peer behaviour used by the invocation witnesses. -/
def implW : PeerImpl :=
  { tsyneInitRet := fun m => m + 40,
    startUDSRet := fun _ => 3,
    startUDSWithDirRet := fun _ _ => 4,
    startGrpcRet := fun _ => 5,
    startEmbeddedRet := fun _ _ _ => 6,
    nodeStartRet := 0 }

/-- C7 witness: in `fullWorld` the background start returns 0 after the
500000-microsecond settle delay. -/
theorem c7_background_settle_witness :
    (startBridgeInBackground fullWorld st0 implW 1 (some "/tmp/custom") true).ret = 0
    ∧ (startBridgeInBackground fullWorld st0 implW 1 (some "/tmp/custom") true).sleepMicros
        = 500000 :=
  ⟨(c7_background_settle fullWorld st0 implW 1 (some "/tmp/custom") (by decide)).1,
   (c7_background_settle fullWorld st0 implW 1 (some "/tmp/custom") (by decide)).2.1⟩

/-- C8: calling `startEmbeddedBridge` with a non-NULL render target whose
class lacks the `onFrame(ByteBuffer,int,int,int)` method fails with -3,
spawns no worker, and leaves no callback target registered: the durable
target reference (and the cached method id) are NULL afterward. -/
theorem c8_embedded_missing_onFrame (w : World) (s : St) (width height : Int)
    (dir : Option String) (t : Nat) (pthreadOk : Bool)
    (h0 : (initFunctionPointers w s).ret ≠ 0)
    (hemb : (initFunctionPointers w s).st.pStartEmbedded ≠ none) :
    (startEmbeddedBridge w s width height dir (some t) none pthreadOk).ret = -3
    ∧ (startEmbeddedBridge w s width height dir (some t) none pthreadOk).st.renderSurface = none
    ∧ (startEmbeddedBridge w s width height dir (some t) none pthreadOk).st.onFrameMethod = none
    ∧ (startEmbeddedBridge w s width height dir (some t) none pthreadOk).workerSpawned = false := by
  simp [startEmbeddedBridge, h0, hemb]

/-- C8 witness: in `fullWorld` (embedded entry point present) a target
without onFrame makes startEmbeddedBridge fail with -3 and register nothing. -/
theorem c8_embedded_missing_onFrame_witness :
    (startEmbeddedBridge fullWorld st0 1080 1920 (some "/tmp/custom") (some 5) none true).ret = -3
    ∧ (startEmbeddedBridge fullWorld st0 1080 1920 (some "/tmp/custom") (some 5) none
        true).st.renderSurface = none :=
  ⟨(c8_embedded_missing_onFrame fullWorld st0 1080 1920 (some "/tmp/custom") 5 true
      (by decide) (by decide)).1,
   (c8_embedded_missing_onFrame fullWorld st0 1080 1920 (some "/tmp/custom") 5 true
      (by decide) (by decide)).2.1⟩

/-- C9: after successful initialization, each synchronous invocation wrapper
(TsyneInit, StartBridgeMsgpackUDS, StartBridgeGrpc) returns exactly the
native return code of the resolved peer entry point, untransformed, calling
that entry point exactly once. -/
theorem c9_invoke_passthrough (w : World) (s : St) (impl : PeerImpl) (mode : Int)
    (h0 : (initFunctionPointers w s).ret ≠ 0)
    (hI : (initFunctionPointers w s).st.pTsyneInit ≠ none)
    (hU : (initFunctionPointers w s).st.pStartUDS ≠ none)
    (hG : (initFunctionPointers w s).st.pStartGrpc ≠ none) :
    (tsyneInitOp w s impl mode).ret = .ok (impl.tsyneInitRet mode)
    ∧ (tsyneInitOp w s impl mode).calls = [.tsyneInit mode]
    ∧ (startBridgeMsgpackUDSOp w s impl mode).ret = .ok (impl.startUDSRet mode)
    ∧ (startBridgeMsgpackUDSOp w s impl mode).calls = [.startUDS mode]
    ∧ (startBridgeGrpcOp w s impl mode).ret = .ok (impl.startGrpcRet mode)
    ∧ (startBridgeGrpcOp w s impl mode).calls = [.startGrpc mode] := by
  obtain ⟨aI, haI⟩ := Option.ne_none_iff_exists'.mp hI
  obtain ⟨aU, haU⟩ := Option.ne_none_iff_exists'.mp hU
  obtain ⟨aG, haG⟩ := Option.ne_none_iff_exists'.mp hG
  simp [tsyneInitOp, startBridgeMsgpackUDSOp, startBridgeGrpcOp, h0, haI, haU, haG]

/-- C9 witness: in `fullWorld` the TsyneInit wrapper returns the peer's
return code unchanged. -/
theorem c9_invoke_passthrough_witness :
    (tsyneInitOp fullWorld st0 implW 2).ret = .ok (implW.tsyneInitRet 2) :=
  (c9_invoke_passthrough fullWorld st0 implW 2 (by decide) (by decide) (by decide)
    (by decide)).1

/-- Linker world whose bridge library exports `TsyneInit` but not the other
required symbols — the input exhibiting the stale-cache-guard bug. -/
def c2World : World :=
  { loaded := [bridgeLib],
    sym := fun l n =>
      if l = bridgeLib then (if n = "TsyneInit" then some 101 else none) else none,
    handleAddr := fun _ => 1 }

/-- C2 (bug demonstration): with `TsyneInit` resolvable but the required
`StartBridgeMsgpackUDS` absent, the first TsyneInit call correctly fails
with -1 and calls nothing — but because the `g_TsyneInit != NULL` cache
guard fires after that partial resolution, the second call treats
initialization as complete, invokes the peer, and returns its code
(here 45, non-negative), instead of failing again as the spec requires
("all dependent operations become permanently unavailable"). -/
theorem c2_partial_init_divergence :
    (tsyneInitOp c2World st0 implW 5).ret = CallResult.ok (-1)
    ∧ (tsyneInitOp c2World st0 implW 5).calls = []
    ∧ (tsyneInitOp c2World (tsyneInitOp c2World st0 implW 5).st implW 5).ret
        = CallResult.ok 45
    ∧ (tsyneInitOp c2World (tsyneInitOp c2World st0 implW 5).st implW 5).calls
        = [PeerCall.tsyneInit 5] := by decide

/-- Dropping a string's characters beyond a bound it already meets changes
nothing. -/
theorem stringTake_of_le (t : String) (n : Nat) (h : t.length ≤ n) :
    String.mk (t.data.take n) = t := by
  cases t with
  | mk l =>
    simp only [String.length] at h
    rw [List.take_of_length_le h]

/-- A 300-character directory string: legal input to the socket-directory
store (it fits the 512-byte `g_socketDir` buffer) but long enough that the
256-byte `snprintf` buffer of `getBridgeSocketPath` truncates the result. -/
def c3LongDir : String := ⟨List.replicate 300 'a'⟩

/-- C3 counterexample: after setting the socket directory to a 300-character
string D, the path query does not return `D ++ "/tsyne-1.sock"` for pid 1 —
snprintf keeps only the first 255 characters. -/
theorem c3_socket_path_truncation_cex :
    ¬ (getBridgeSocketPath (storeSocketDir st0 (some c3LongDir)) 1
        = c3LongDir ++ "/tsyne-1.sock") := by
  set_option maxRecDepth 4096 in decide

/-- C3 (amended): provided the directory string is non-empty, fits the
511-character socket-directory buffer, and the formatted path fits the
255-character snprintf budget, the path query returns exactly
`D ++ "/tsyne-" ++ pid ++ ".sock"` after the directory is set to D, and
exactly the default-directory path while the directory is unset. -/
theorem c3_socket_path_amended (s : St) (d : String) (pid : Nat)
    (hne : d ≠ "") (hlen : d.length ≤ 511)
    (hfit : (socketPathFmt d pid).length ≤ 255)
    (hdef : (socketPathFmt defaultSocketDir pid).length ≤ 255) :
    getBridgeSocketPath (storeSocketDir s (some d)) pid
      = d ++ "/tsyne-" ++ toString pid ++ ".sock"
    ∧ (s.socketDir = "" → getBridgeSocketPath s pid
        = defaultSocketDir ++ "/tsyne-" ++ toString pid ++ ".sock") := by
  have hd : strncpyTrunc d 511 = d := stringTake_of_le d 511 hlen
  constructor
  · simp only [getBridgeSocketPath, storeSocketDir, hd]
    rw [if_pos hne]
    exact stringTake_of_le (socketPathFmt d pid) 255 hfit
  · intro h0
    simp only [getBridgeSocketPath, h0]
    rw [if_neg (by simp)]
    exact stringTake_of_le (socketPathFmt defaultSocketDir pid) 255 hdef

/-- C3 witness: the spec's own concrete scenario, directory `"/tmp/custom"`
and pid 12345. -/
theorem c3_socket_path_amended_witness :
    getBridgeSocketPath (storeSocketDir st0 (some "/tmp/custom")) 12345
      = "/tmp/custom" ++ "/tsyne-" ++ toString (12345 : Nat) ++ ".sock" :=
  (c3_socket_path_amended st0 "/tmp/custom" 12345 (by decide) (by decide) (by decide)
    (by decide)).1

end Tsyne
